import Mathlib

/-!
Shallow embedding of the token-manager core of `python-sdk-core`:
`ibm_cloud_sdk_core/token_manager.py` (class `TokenManager`) and
`ibm_cloud_sdk_core/jwt_token_manager.py` (class `JWTTokenManager`).

Modelling conventions:
- Python object attributes become fields of `TMState`; a method that mutates
  the object becomes a function returning the new state.
- Epoch times read from the clock (`int(time.time())`) are `Int`; the fields
  `expire_time` / `refresh_time` are `Rat` because
  `_set_expire_and_refresh_time` stores `exp - ttl * 0.2` (a Python float);
  the literal `0.2` is embedded as the exact rational `1/5`.
- A Python method that can raise returns an extra `Option String` component:
  `none` means a normal return and `some e` a propagating exception `e`;
  the state component is the object's state at the moment the method exits,
  including mutations performed before the exception was raised.
- `dict` values relevant to the claims are string-valued, so a token
  response is an association list `List (String × String)`; `dict.get(key)`
  with `key : Option String` returns `none` when the key is `None` or absent.
- The `jwt.decode(token, verify=False)` call is an external library call: it
  is a parameter `dec : String → Option JwtPayload` of the JWT definitions,
  returning `none` when the token is not a well-formed JWT, and otherwise the
  payload's `exp` / `iat` claims (each absent, non-numeric, or a number).
  It takes no verification key, mirroring `verify=False`.
- `request_token` is abstract (subclass-supplied); it is a parameter
  `fetch : Except String TokenDict` (`.error e` models a raised exception).
-/

namespace TokenSDK

abbrev TokenDict := List (String × String)

/-- Python `d.get(k)` for a string-keyed dict and `k : Optional[str]`:
`None` as a key, or an absent key, yields `None`. -/
def dictGet (d : TokenDict) (k : Option String) : Option String :=
  match k with
  | none => none
  | some key => d.lookup key

/-- The mutable attributes of a `TokenManager` instance
(`__init__` sets `token_info = {}`, `expire_time = 0`, `refresh_time = 0`,
`request_time = 0`). -/
structure TMState where
  token_name : Option String
  token_info : TokenDict
  expire_time : Rat
  refresh_time : Rat
  request_time : Int
  deriving Repr, DecidableEq

/-- The state right after `__init__` with a given `token_name`. -/
def TMState.init (name : Option String) : TMState :=
  { token_name := name, token_info := [], expire_time := 0,
    refresh_time := 0, request_time := 0 }

/-- Source `TokenManager._is_token_expired`: `self.expire_time < current_time`.
The method only reads state, hence the `Bool` return type. -/
def _is_token_expired (s : TMState) (now : Int) : Bool :=
  s.expire_time < (now : Rat)

/-- Source `TokenManager._token_needs_refresh`: under the lock, compare
`self.refresh_time < current_time`; when true, set
`self.refresh_time = current_time + 60`. Returns `needs_refresh` and the
updated state. -/
def _token_needs_refresh (s : TMState) (now : Int) : Bool × TMState :=
  let needs_refresh := s.refresh_time < (now : Rat)
  if needs_refresh then
    (true, { s with refresh_time := (now : Rat) + 60 })
  else
    (false, s)

/-- Source `TokenManager._set_expire_and_refresh_time`:
`self.expire_time = exp; buffer = ttl * 0.2;
self.refresh_time = self.expire_time - buffer`. -/
def _set_expire_and_refresh_time (s : TMState) (exp ttl : Rat) : TMState :=
  let s1 := { s with expire_time := exp }
  let buffer := ttl * (1 / 5)
  { s1 with refresh_time := s1.expire_time - buffer }

/-- Source `TokenManager._save_token_info`, with the abstract
`extract_exp_and_ttl` as a parameter (`.error e` models a raised
exception). Note the source assigns `self.token_info = token_response`
BEFORE calling the extractor, so on an extraction error the returned state
already holds the new `token_info`. -/
def _save_token_info (extract : TokenDict → Except String (Rat × Rat))
    (s : TMState) (token_response : TokenDict) : TMState × Option String :=
  let s1 := { s with token_info := token_response }
  match extract token_response with
  | .error e => (s1, some e)
  | .ok (exp, ttl) => (_set_expire_and_refresh_time s1 exp ttl, none)

/-- A claim of the `jwt` library's decoded payload: the `exp` or `iat`
entry is either a number or some non-numeric JSON value. -/
inductive JwtClaim where
  | num (q : Rat)
  | nonNum
  deriving Repr, DecidableEq

/-- The payload returned by `jwt.decode(access_token, verify=False)`:
`payload.get(claim)` for `exp` and `iat` (absent entries give `none`). -/
structure JwtPayload where
  exp : Option JwtClaim
  iat : Option JwtClaim
  deriving Repr, DecidableEq

/-- Source `JWTTokenManager._save_token_info`.  Here `dec` is the external
`jwt.decode(·, verify=False)`.  The source:
`self.token_info = token_response;
access_token = token_response.get(self.token_name);
decoded_response = jwt.decode(access_token, verify=False);
exp = decoded_response.get('exp'); iat = decoded_response.get('iat');
buffer = (exp - iat); self._set_expire_and_refresh_time(exp, buffer)`.
`jwt.decode(None, ...)` raises, a malformed token raises `DecodeError`,
and `exp - iat` raises a `TypeError` when either claim is absent or
non-numeric. -/
def jwt_save_token_info (dec : String → Option JwtPayload)
    (s : TMState) (token_response : TokenDict) : TMState × Option String :=
  let s1 := { s with token_info := token_response }
  match dictGet token_response s.token_name with
  | none => (s1, some "DecodeError: token must not be None")
  | some access_token =>
    match dec access_token with
    | none => (s1, some "DecodeError: not a valid JWT")
    | some decoded_response =>
      match decoded_response.exp, decoded_response.iat with
      | some (.num exp), some (.num iat) =>
        (_set_expire_and_refresh_time s1 exp (exp - iat), none)
      | _, _ => (s1, some "TypeError: exp and iat must be numbers")

/-- Source `TokenManager.extract_token_from_stored_response`:
`self.token_info.get(self.token_name)` (the `JWTTokenManager` override is
the same expression). -/
def extract_token_from_stored_response (s : TMState) : Option String :=
  dictGet s.token_info s.token_name

/-- The lock-protected section of `TokenManager.paced_request_token`:
`request_active = self.request_time > (current_time - 60);
if not request_active: self.request_time = current_time`.
Returns `(becomes claimant, new state)`; the caller becomes the claimant
exactly when `request_active` is false. -/
def pacedCheck (s : TMState) (now : Int) : Bool × TMState :=
  let request_active := s.request_time > now - 60
  if request_active then (false, s)
  else (true, { s with request_time := now })

/-- How one iteration of the `while` loop of `paced_request_token` ends:
the method returns, an exception propagates, or the caller sleeps 500ms
and iterates again. -/
inductive PacedOutcome where
  | returned
  | raised (e : String)
  | slept
  deriving Repr, DecidableEq

/-- One iteration of `paced_request_token`'s `while` loop for one caller,
with the subclass `_save_token_info` passed in as `save` and the abstract
`request_token` as `fetch`.  `nowWhile` is the clock value read by the
`while self._is_token_expired()` test and `now` the one read by
`current_time = self._get_current_time()`.  On the claimant path the
source runs `token_response = self.request_token();
self._save_token_info(token_response); self.request_time = 0; return`
with no try/finally, so an exception from `fetch` or `save` exits the
method without executing `self.request_time = 0`. -/
def pacedIter (fetch : Except String TokenDict)
    (save : TMState → TokenDict → TMState × Option String)
    (s : TMState) (nowWhile now : Int) : TMState × PacedOutcome :=
  if _is_token_expired s nowWhile = false then
    (s, .returned)
  else
    match pacedCheck s now with
    | (true, s1) =>
      match fetch with
      | .error e => (s1, .raised e)
      | .ok token_response =>
        match save s1 token_response with
        | (s2, some e) => (s2, .raised e)
        | (s2, none) => ({ s2 with request_time := 0 }, .returned)
    | (false, s1) => (s1, .slept)

/-- Count how many of a sequence of lock-protected checks (at the given
clock values, in order) make their caller the claimant.  This is the
pacing protocol restricted to the state the lock protects. -/
def countClaims (s : TMState) : List Int → Nat
  | [] => 0
  | t :: ts =>
    match pacedCheck s t with
    | (true, s1) => 1 + countClaims s1 ts
    | (false, s1) => countClaims s1 ts

/-- Result of one `get_token()` call: normal return of
`extract_token_from_stored_response`, a propagating exception, or
divergence (the paced loop still sleeping when the modelled clock ends). -/
inductive GetResult where
  | ok (s : TMState) (v : Option String)
  | raised (s : TMState) (e : String)
  | diverge (s : TMState)
  deriving Repr, DecidableEq

/-- Source `TokenManager.paced_request_token` for a single caller: iterate
`pacedIter` over successive clock reads.  `clock k` is the value of the
`k`-th call to `_get_current_time()` (each loop iteration reads the clock
twice: once in `_is_token_expired`, once for `current_time`); `fuel`
bounds the number of iterations that can be modelled. -/
def paced_request_token (fetch : Except String TokenDict)
    (save : TMState → TokenDict → TMState × Option String)
    (clock : Nat → Int) : Nat → Nat → TMState → Nat × Option (TMState × Option String)
  | 0, k, _ => (k, none)
  | fuel + 1, k, s =>
    match pacedIter fetch save s (clock k) (clock (k + 1)) with
    | (s1, .returned) => (k + 2, some (s1, none))
    | (s1, .raised e) => (k + 2, some (s1, some e))
    | (s1, .slept) => paced_request_token fetch save clock fuel (k + 2) s1

/-- Source `TokenManager.get_token` for a single caller:
`if self._is_token_expired(): self.paced_request_token()`;
`if self._token_needs_refresh(): token_response = self.request_token();
self._save_token_info(token_response)`;
`return self.extract_token_from_stored_response()`. -/
def get_token (fetch : Except String TokenDict)
    (save : TMState → TokenDict → TMState × Option String)
    (clock : Nat → Int) (fuel : Nat) (s : TMState) : GetResult :=
  let paced : Nat × Option (TMState × Option String) :=
    if _is_token_expired s (clock 0) then
      paced_request_token fetch save clock fuel 1 s
    else
      (1, some (s, none))
  match paced with
  | (_, none) => .diverge s
  | (_, some (s1, some e)) => .raised s1 e
  | (k, some (s1, none)) =>
    match _token_needs_refresh s1 (clock k) with
    | (true, s2) =>
      match fetch with
      | .error e => .raised s2 e
      | .ok token_response =>
        match save s2 token_response with
        | (s3, some e) => .raised s3 e
        | (s3, none) => .ok s3 (extract_token_from_stored_response s3)
    | (false, s2) => .ok s2 (extract_token_from_stored_response s2)

/-- A concrete manager state holding a previously saved token:
`token_info = {"access_token": "oldtok"}`, `expire_time = 1000`,
`refresh_time = 980`. -/
def sCached : TMState :=
  { token_name := some "access_token",
    token_info := [("access_token", "oldtok")],
    expire_time := 1000, refresh_time := 980, request_time := 0 }

/-- A concrete decoder standing for `jwt.decode` on a token whose payload
is `{"exp": 1000, "iat": 900}`. -/
def decGood : String → Option JwtPayload :=
  fun _ => some ⟨some (.num 1000), some (.num 900)⟩

/-- The state reached by saving the response `{"access_token": "T"}` with
`decGood` from the initial state. -/
def sSaved : TMState :=
  { token_name := some "access_token",
    token_info := [("access_token", "T")],
    expire_time := 1000, refresh_time := 980, request_time := 0 }

/-! Helper lemmas shared between the claim theorems. -/

/-- Every branch of `jwt_save_token_info` has already stored the new
response in `token_info`. -/
theorem jwt_save_fst_token_info (dec : String → Option JwtPayload)
    (s : TMState) (resp : TokenDict) :
    (jwt_save_token_info dec s resp).1.token_info = resp := by
  unfold jwt_save_token_info
  repeat' split
  all_goals simp [_set_expire_and_refresh_time]

/-- No branch of `jwt_save_token_info` changes `token_name`. -/
theorem jwt_save_fst_token_name (dec : String → Option JwtPayload)
    (s : TMState) (resp : TokenDict) :
    (jwt_save_token_info dec s resp).1.token_name = s.token_name := by
  unfold jwt_save_token_info
  repeat' split
  all_goals simp [_set_expire_and_refresh_time]

/-- No branch of `jwt_save_token_info` changes `request_time`. -/
theorem jwt_save_fst_request_time (dec : String → Option JwtPayload)
    (s : TMState) (resp : TokenDict) :
    (jwt_save_token_info dec s resp).1.request_time = s.request_time := by
  unfold jwt_save_token_info
  repeat' split
  all_goals simp [_set_expire_and_refresh_time]

/-- On every raising branch of `jwt_save_token_info` the expiry fields
keep their previous values. -/
theorem jwt_save_error_times (dec : String → Option JwtPayload)
    (s : TMState) (resp : TokenDict)
    (h : (jwt_save_token_info dec s resp).2.isSome) :
    (jwt_save_token_info dec s resp).1.expire_time = s.expire_time ∧
    (jwt_save_token_info dec s resp).1.refresh_time = s.refresh_time := by
  unfold jwt_save_token_info at h ⊢
  repeat' split
  all_goals first
  | exact ⟨rfl, rfl⟩
  | (exfalso; revert h; repeat' split; all_goals simp_all)

end TokenSDK

open TokenSDK

/-- C5: `_save_token_info` stores `expire_time = exp` and
`refresh_time = exp - 0.2 * ttl` from the extractor's `(exp, ttl)`; in the
JWT variant a response whose token decodes to `exp = 1000, iat = 900`
(so `ttl = 100`) yields `expire_time = 1000` and `refresh_time = 980`. -/
theorem C5_save_sets_expire_and_refresh
    (extract : TokenDict → Except String (Rat × Rat)) (s : TMState)
    (resp : TokenDict) (exp ttl : Rat)
    (hex : extract resp = .ok (exp, ttl)) :
    (_save_token_info extract s resp).1.expire_time = exp ∧
    (_save_token_info extract s resp).1.refresh_time = exp - ttl * (1 / 5) ∧
    (∀ (dec : String → Option JwtPayload) (s0 : TMState) (r : TokenDict)
        (tok : String),
      dictGet r s0.token_name = some tok →
      dec tok = some ⟨some (.num 1000), some (.num 900)⟩ →
      (jwt_save_token_info dec s0 r).1.expire_time = 1000 ∧
      (jwt_save_token_info dec s0 r).1.refresh_time = 980) := by
  refine ⟨?_, ?_, ?_⟩
  · simp [_save_token_info, hex, _set_expire_and_refresh_time]
  · simp [_save_token_info, hex, _set_expire_and_refresh_time]
  · intro dec s0 r tok htok hdec
    simp only [jwt_save_token_info, htok, hdec]
    refine ⟨by simp [_set_expire_and_refresh_time], ?_⟩
    simp [_set_expire_and_refresh_time]
    norm_num

/-- C5 witness: a concrete extractor returning `(1000, 100)`. -/
theorem C5_witness :
    (fun (_ : TokenDict) =>
      (Except.ok ((1000 : Rat), (100 : Rat)) : Except String (Rat × Rat)))
        [("access_token", "T")] = .ok (1000, 100) ∧
    ((_save_token_info
        (fun _ => .ok (1000, 100)) (TMState.init (some "access_token"))
        [("access_token", "T")]).1.expire_time = 1000 ∧
      (_save_token_info
        (fun _ => .ok (1000, 100)) (TMState.init (some "access_token"))
        [("access_token", "T")]).1.refresh_time = 1000 - 100 * (1 / 5) ∧
      (∀ (dec : String → Option JwtPayload) (s0 : TMState) (r : TokenDict)
          (tok : String),
        dictGet r s0.token_name = some tok →
        dec tok = some ⟨some (.num 1000), some (.num 900)⟩ →
        (jwt_save_token_info dec s0 r).1.expire_time = 1000 ∧
        (jwt_save_token_info dec s0 r).1.refresh_time = 980)) :=
  ⟨rfl, C5_save_sets_expire_and_refresh (fun _ => .ok (1000, 100))
    (TMState.init (some "access_token")) [("access_token", "T")] 1000 100 rfl⟩

/-- C6 counterexample: at `now = 0` with `expire_time = 0` (the initial,
never-fetched state) the source returns `false` (`0 < 0` fails), while the
claim requires `true` whenever `expire_time == 0`. -/
theorem C6_counterexample :
    ¬ (_is_token_expired (TMState.init none) 0 = true ↔
        (TMState.init none).expire_time = 0 ∨
          (TMState.init none).expire_time < ((0 : Int) : Rat)) := by
  decide

/-- C6 amended: for every positive current time `now ≥ 1`,
`_is_token_expired` returns `true` exactly when `expire_time = 0` or
`expire_time < now`; the embedding returns only a `Bool`, reflecting that
the method reads state without mutating it. -/
theorem C6_is_expired_characterization (s : TMState) (now : Int)
    (h : 1 ≤ now) :
    (_is_token_expired s now = true ↔
      s.expire_time = 0 ∨ s.expire_time < (now : Rat)) := by
  unfold _is_token_expired
  simp only [decide_eq_true_eq]
  constructor
  · exact Or.inr
  · rintro (hz | hlt)
    · rw [hz]
      exact_mod_cast lt_of_lt_of_le Int.zero_lt_one h
    · exact hlt

/-- C6 witness: the characterization applied at `now = 1` on the initial
state. -/
theorem C6_witness :
    (1 : Int) ≤ 1 ∧
    (_is_token_expired (TMState.init none) 1 = true ↔
      (TMState.init none).expire_time = 0 ∨
        (TMState.init none).expire_time < ((1 : Int) : Rat)) :=
  ⟨le_refl 1, C6_is_expired_characterization (TMState.init none) 1 (le_refl 1)⟩

/-- C7: when `refresh_time < now`, the first `_token_needs_refresh` call
returns `true` and sets `refresh_time = now + 60`; a second call at any
`now2` with `now ≤ now2 ≤ now + 60` returns `false` and leaves the state
unchanged. -/
theorem C7_needs_refresh_twice (s : TMState) (now now2 : Int)
    (h1 : s.refresh_time < (now : Rat)) (h2 : now ≤ now2)
    (h3 : now2 ≤ now + 60) :
    (_token_needs_refresh s now).1 = true ∧
    (_token_needs_refresh s now).2.refresh_time = (now : Rat) + 60 ∧
    (_token_needs_refresh (_token_needs_refresh s now).2 now2).1 = false ∧
    (_token_needs_refresh (_token_needs_refresh s now).2 now2).2 =
      (_token_needs_refresh s now).2 := by
  have hfirst : _token_needs_refresh s now =
      (true, { s with refresh_time := (now : Rat) + 60 }) := by
    unfold _token_needs_refresh
    simp [h1]
  have hnotlt : ¬ ((now : Rat) + 60 < (now2 : Rat)) := by
    have : (now2 : Rat) ≤ (now : Rat) + 60 := by
      exact_mod_cast h3
    linarith
  refine ⟨by rw [hfirst], by rw [hfirst], ?_, ?_⟩
  · rw [hfirst]
    unfold _token_needs_refresh
    simp [hnotlt]
  · rw [hfirst]
    unfold _token_needs_refresh
    simp [hnotlt]

/-- C7 witness: `refresh_time = 0`, first call at `now = 100`, second at
`now2 = 150`. -/
theorem C7_witness :
    ((TMState.init none).refresh_time < ((100 : Int) : Rat) ∧
      (100 : Int) ≤ 150 ∧ (150 : Int) ≤ 100 + 60) ∧
    ((_token_needs_refresh (TMState.init none) 100).1 = true ∧
      (_token_needs_refresh (TMState.init none) 100).2.refresh_time =
        ((100 : Int) : Rat) + 60 ∧
      (_token_needs_refresh
        (_token_needs_refresh (TMState.init none) 100).2 150).1 = false ∧
      (_token_needs_refresh
        (_token_needs_refresh (TMState.init none) 100).2 150).2 =
        (_token_needs_refresh (TMState.init none) 100).2) :=
  ⟨⟨by norm_num [TMState.init], by norm_num, by norm_num⟩,
    C7_needs_refresh_twice (TMState.init none) 100 150
      (by norm_num [TMState.init]) (by norm_num) (by norm_num)⟩

/-- C3 counterexample: saving a response whose token fails to decode
(`dec` returns `none`, a malformed JWT) raises, yet the stored record is
partially updated: `token_info` already holds the new response while
`expire_time` keeps its old value `1000`, so a reader then observes an
`expire_time` that does not correspond to the stored `token_info`. -/
theorem C3_counterexample :
    ((jwt_save_token_info (fun _ => none) sCached
        [("access_token", "garbage")]).2.isSome = true) ∧
    (jwt_save_token_info (fun _ => none) sCached
        [("access_token", "garbage")]).1.token_info ≠ sCached.token_info ∧
    (jwt_save_token_info (fun _ => none) sCached
        [("access_token", "garbage")]).1.expire_time = sCached.expire_time := by
  refine ⟨rfl, ?_, rfl⟩
  decide

/-- C3 amended: `jwt_save_token_info` stores the new response in
`token_info` on every path, including before a failing expiry extraction;
on failure the expiry fields keep their old values (a partial update), and
only on success are `expire_time` / `refresh_time` those derived from the
newly stored response. -/
theorem C3_save_replaces_record (dec : String → Option JwtPayload)
    (s : TMState) (resp : TokenDict) :
    (jwt_save_token_info dec s resp).1.token_info = resp ∧
    ((jwt_save_token_info dec s resp).2.isSome →
      (jwt_save_token_info dec s resp).1.expire_time = s.expire_time ∧
      (jwt_save_token_info dec s resp).1.refresh_time = s.refresh_time) ∧
    ((jwt_save_token_info dec s resp).2 = none →
      ∃ tok exp iat, dictGet resp s.token_name = some tok ∧
        dec tok = some ⟨some (.num exp), some (.num iat)⟩ ∧
        (jwt_save_token_info dec s resp).1.expire_time = exp ∧
        (jwt_save_token_info dec s resp).1.refresh_time =
          exp - (exp - iat) * (1 / 5)) := by
  refine ⟨jwt_save_fst_token_info dec s resp,
    jwt_save_error_times dec s resp, ?_⟩
  intro h
  cases htok : dictGet resp s.token_name with
  | none => simp [jwt_save_token_info, htok] at h
  | some tok =>
    cases hdec : dec tok with
    | none => simp [jwt_save_token_info, htok, hdec] at h
    | some p =>
      obtain ⟨pe, pi⟩ := p
      cases pe with
      | none => simp [jwt_save_token_info, htok, hdec] at h
      | some c =>
        cases c with
        | nonNum => simp [jwt_save_token_info, htok, hdec] at h
        | num e =>
          cases pi with
          | none => simp [jwt_save_token_info, htok, hdec] at h
          | some c2 =>
            cases c2 with
            | nonNum => simp [jwt_save_token_info, htok, hdec] at h
            | num i =>
              refine ⟨tok, e, i, rfl, hdec, ?_, ?_⟩ <;>
                simp [jwt_save_token_info, htok, hdec,
                  _set_expire_and_refresh_time]

/-- C4 counterexample: in the cached state (`expire_time = 1000`,
`refresh_time = 980`) the invariant holds, but `_token_needs_refresh` at
`now = 990` sets `refresh_time = 1050 > 1000 = expire_time`, so the
invariant is not preserved by every operation. -/
theorem C4_counterexample :
    (sCached.refresh_time ≤ sCached.expire_time) ∧
    (_token_needs_refresh sCached 990).1 = true ∧
    ¬ ((_token_needs_refresh sCached 990).2.refresh_time ≤
        (_token_needs_refresh sCached 990).2.expire_time) := by
  have h990 : _token_needs_refresh sCached 990 =
      (true, { sCached with refresh_time := ((990 : Int) : Rat) + 60 }) := by
    unfold _token_needs_refresh
    norm_num [sCached]
  refine ⟨by norm_num [sCached], ?_, ?_⟩ <;> rw [h990] <;> norm_num [sCached]

/-- C4 amended: `refresh_time ≤ expire_time` is established by
`_set_expire_and_refresh_time` (hence by every successful
`_save_token_info`) whenever `ttl ≥ 0`, and the lock section of
`paced_request_token` never touches these two fields; but
`_token_needs_refresh` may set `refresh_time = now + 60` above
`expire_time`, so the invariant does not hold in every reachable state. -/
theorem C4_invariant_at_save (s : TMState) (exp ttl : Rat)
    (h : 0 ≤ ttl) :
    ((_set_expire_and_refresh_time s exp ttl).refresh_time ≤
      (_set_expire_and_refresh_time s exp ttl).expire_time) ∧
    (∀ (extract : TokenDict → Except String (Rat × Rat))
        (resp : TokenDict) (e t : Rat),
      extract resp = .ok (e, t) → 0 ≤ t →
      (_save_token_info extract s resp).1.refresh_time ≤
        (_save_token_info extract s resp).1.expire_time) ∧
    (∀ now : Int, (pacedCheck s now).2.refresh_time = s.refresh_time ∧
      (pacedCheck s now).2.expire_time = s.expire_time) := by
  refine ⟨?_, ?_, ?_⟩
  · have hb : 0 ≤ ttl * (1 / 5) := mul_nonneg h (by norm_num)
    simp only [_set_expire_and_refresh_time]
    linarith
  · intro extract resp e t hex ht
    have hb : 0 ≤ t * (1 / 5) := mul_nonneg ht (by norm_num)
    simp only [_save_token_info, hex, _set_expire_and_refresh_time]
    linarith
  · intro now
    by_cases hc : s.request_time > now - 60 <;> simp [pacedCheck, hc]

/-- C4 witness: the amended invariant at `exp = 1000`, `ttl = 100`. -/
theorem C4_witness :
    (0 : Rat) ≤ 100 ∧
    (((_set_expire_and_refresh_time (TMState.init none) 1000 100).refresh_time ≤
        (_set_expire_and_refresh_time (TMState.init none) 1000 100).expire_time) ∧
      (∀ (extract : TokenDict → Except String (Rat × Rat))
          (resp : TokenDict) (e t : Rat),
        extract resp = .ok (e, t) → 0 ≤ t →
        (_save_token_info extract (TMState.init none) resp).1.refresh_time ≤
          (_save_token_info extract (TMState.init none) resp).1.expire_time) ∧
      (∀ now : Int,
        (pacedCheck (TMState.init none) now).2.refresh_time =
          (TMState.init none).refresh_time ∧
        (pacedCheck (TMState.init none) now).2.expire_time =
          (TMState.init none).expire_time)) :=
  ⟨by norm_num, C4_invariant_at_save (TMState.init none) 1000 100 (by norm_num)⟩

/-- C10: when the stored `token_info` does not contain the configured
`token_name` (including `token_name = None` and the empty initial record),
`extract_token_from_stored_response` returns `none` rather than raising,
and a `get_token` call that performs no fetch returns normally with
`none`. -/
theorem C10_missing_key_returns_none (s : TMState)
    (fetch : Except String TokenDict)
    (save : TMState → TokenDict → TMState × Option String)
    (clock : Nat → Int) (fuel : Nat)
    (hkey : ∀ k, s.token_name = some k → s.token_info.lookup k = none)
    (hexp : ¬ s.expire_time < ((clock 0 : Int) : Rat))
    (href : ¬ s.refresh_time < ((clock 1 : Int) : Rat)) :
    extract_token_from_stored_response s = none ∧
    get_token fetch save clock fuel s = .ok s none := by
  have hext : extract_token_from_stored_response s = none := by
    unfold extract_token_from_stored_response dictGet
    cases hn : s.token_name with
    | none => rfl
    | some k => exact hkey k hn
  have h1 : _is_token_expired s (clock 0) = false := by
    unfold _is_token_expired
    simpa using hexp
  have h2 : _token_needs_refresh s (clock 1) = (false, s) := by
    unfold _token_needs_refresh
    simp [href]
  refine ⟨hext, ?_⟩
  unfold get_token
  simp [h1, h2, hext]

/-- C10 witness: the initial state with `token_name = None` and a stopped
clock. -/
theorem C10_witness :
    ((∀ k, (TMState.init none).token_name = some k →
        (TMState.init none).token_info.lookup k = none) ∧
      ¬ (TMState.init none).expire_time < (((0 : Int)) : Rat) ∧
      ¬ (TMState.init none).refresh_time < (((0 : Int)) : Rat)) ∧
    (extract_token_from_stored_response (TMState.init none) = none ∧
      get_token (Except.error "e") (fun st _ => (st, none)) (fun _ => 0) 0
        (TMState.init none) = .ok (TMState.init none) none) :=
  ⟨⟨fun k hk => absurd hk (by simp [TMState.init]), by simp [TMState.init],
      by simp [TMState.init]⟩,
    C10_missing_key_returns_none (TMState.init none) (Except.error "e")
      (fun st _ => (st, none)) (fun _ => 0) 0
      (fun k hk => absurd hk (by simp [TMState.init]))
      (by simp [TMState.init]) (by simp [TMState.init])⟩

/-- Helper: once `request_time` is claimed, every later check whose clock
value is below `request_time + 60` sees an active request and does not
claim. -/
theorem countClaims_eq_zero (s : TMState) (ts : List Int)
    (h : ∀ t ∈ ts, t < s.request_time + 60) : countClaims s ts = 0 := by
  induction ts generalizing s with
  | nil => rfl
  | cons t ts ih =>
    have hact : s.request_time > t - 60 := by
      have := h t (List.mem_cons_self t ts)
      omega
    have hpc : pacedCheck s t = (false, s) := by
      simp [pacedCheck, hact]
    simp only [countClaims, hpc]
    exact ih s (fun t' ht' => h t' (List.mem_cons_of_mem t ht'))

/-- C1: in the lock section of `paced_request_token` a caller becomes the
claimant exactly when `request_time ≤ now - 60`, in which case it sets
`request_time = now` (otherwise the state is untouched and the caller
sleeps); consequently, for any number of callers whose lock-section clock
readings all fall in one 60-second window, at most one fetch is issued. -/
theorem C1_paced_single_flight :
    (∀ (s : TMState) (now : Int),
      ((pacedCheck s now).1 = true ↔ s.request_time ≤ now - 60) ∧
      ((pacedCheck s now).1 = true →
        (pacedCheck s now).2 = { s with request_time := now }) ∧
      ((pacedCheck s now).1 = false → (pacedCheck s now).2 = s)) ∧
    (∀ (fetch : Except String TokenDict)
        (save : TMState → TokenDict → TMState × Option String)
        (s : TMState) (nw now : Int),
      _is_token_expired s nw = true → (pacedCheck s now).1 = false →
      pacedIter fetch save s nw now = (s, .slept)) ∧
    (∀ (s : TMState) (w : Int) (ts : List Int),
      (∀ t ∈ ts, w ≤ t ∧ t < w + 60) → countClaims s ts ≤ 1) := by
  refine ⟨?_, ?_, ?_⟩
  · intro s now
    by_cases hc : s.request_time > now - 60 <;>
      simp [pacedCheck, hc] <;> omega
  · intro fetch save s nw now hexp hnc
    have hc : s.request_time > now - 60 := by
      by_contra hle
      have : (pacedCheck s now).1 = true := by simp [pacedCheck, hle]
      simp [this] at hnc
    have hpc : pacedCheck s now = (false, s) := by simp [pacedCheck, hc]
    unfold pacedIter
    simp [hexp, hpc]
  · intro s w ts h
    induction ts generalizing s with
    | nil => simp [countClaims]
    | cons t ts ih =>
      by_cases hc : s.request_time > t - 60
      · have hpc : pacedCheck s t = (false, s) := by simp [pacedCheck, hc]
        simp only [countClaims, hpc]
        exact ih s (fun t' ht' => h t' (List.mem_cons_of_mem t ht'))
      · have hpc : pacedCheck s t =
            (true, { s with request_time := t }) := by
          simp [pacedCheck, hc]
        simp only [countClaims, hpc]
        have hz : countClaims { s with request_time := t } ts = 0 := by
          apply countClaims_eq_zero
          intro t' ht'
          have h1 := h t (List.mem_cons_self t ts)
          have h2 := h t' (List.mem_cons_of_mem t ht')
          simp only
          omega
        omega

/-- C1 witness: three callers checking at clock values 100, 120, 159, all
inside the window starting at 100; only the first claims. -/
theorem C1_witness :
    (∀ t ∈ ([100, 120, 159] : List Int), (100 : Int) ≤ t ∧ t < 100 + 60) ∧
    countClaims (TMState.init none) [100, 120, 159] ≤ 1 :=
  ⟨by decide,
    C1_paced_single_flight.2.2 (TMState.init none) 100 [100, 120, 159]
      (by decide)⟩

/-- C2 counterexample: a claimant whose fetch raises exits
`paced_request_token` with `request_time` still equal to the claim time
`100`, not `0`: the release `self.request_time = 0` is skipped because the
source has no try/finally around the fetch-and-save. -/
theorem C2_counterexample :
    pacedIter (Except.error "HTTP 502") (jwt_save_token_info (fun _ => none))
        (TMState.init (some "access_token")) 100 100 =
      ({ TMState.init (some "access_token") with request_time := 100 },
        .raised "HTTP 502") ∧
    ({ TMState.init (some "access_token") with
        request_time := 100 }).request_time ≠ 0 := by
  constructor
  · rfl
  · decide

/-- C2 amended: the claim `request_time = 0` is released only on the
successful exit path of `paced_request_token`; when `request_token` or
`_save_token_info` raises, the method exits with `request_time` equal to
the claim time `now`, so an immediately subsequent caller finds an active
claim until the 60-second window lapses. -/
theorem C2_claim_release_paths (dec : String → Option JwtPayload)
    (fetch : Except String TokenDict) (s : TMState) (nw now : Int)
    (hexp : _is_token_expired s nw = true)
    (hclaim : s.request_time ≤ now - 60) :
    (∀ resp, fetch = .ok resp →
      (jwt_save_token_info dec { s with request_time := now } resp).2 = none →
      (pacedIter fetch (jwt_save_token_info dec) s nw now).2 = .returned ∧
      (pacedIter fetch (jwt_save_token_info dec) s nw now).1.request_time = 0) ∧
    (∀ e, fetch = .error e →
      (pacedIter fetch (jwt_save_token_info dec) s nw now).2 = .raised e ∧
      (pacedIter fetch (jwt_save_token_info dec) s nw now).1.request_time =
        now) ∧
    (∀ resp e, fetch = .ok resp →
      (jwt_save_token_info dec { s with request_time := now } resp).2 =
        some e →
      (pacedIter fetch (jwt_save_token_info dec) s nw now).2 = .raised e ∧
      (pacedIter fetch (jwt_save_token_info dec) s nw now).1.request_time =
        now) := by
  have hc : ¬ s.request_time > now - 60 := by omega
  have hpc : pacedCheck s now = (true, { s with request_time := now }) := by
    simp [pacedCheck, hc]
  refine ⟨?_, ?_, ?_⟩
  · intro resp hf hsv
    subst hf
    cases hs : jwt_save_token_info dec { s with request_time := now } resp with
    | mk s2 o =>
      rw [hs] at hsv
      simp only at hsv
      subst hsv
      unfold pacedIter
      simp [hexp, hpc, hs]
  · intro e hf
    subst hf
    unfold pacedIter
    simp [hexp, hpc]
  · intro resp e hf hsv
    subst hf
    cases hs : jwt_save_token_info dec { s with request_time := now } resp with
    | mk s2 o =>
      rw [hs] at hsv
      simp only at hsv
      subst hsv
      have hrt := jwt_save_fst_request_time dec
        { s with request_time := now } resp
      rw [hs] at hrt
      simp only at hrt
      unfold pacedIter
      simp [hexp, hpc, hs, hrt]

/-- C2 witness: the amended release behaviour at a concrete expired state,
claim time 100. -/
theorem C2_release_witness :
    (_is_token_expired (TMState.init (some "access_token")) 100 = true ∧
      (TMState.init (some "access_token")).request_time ≤ 100 - 60) ∧
    ((∀ resp, (Except.ok [("access_token", "T")] :
          Except String TokenDict) = .ok resp →
      (jwt_save_token_info decGood
        { TMState.init (some "access_token") with request_time := 100 }
        resp).2 = none →
      (pacedIter (Except.ok [("access_token", "T")])
        (jwt_save_token_info decGood)
        (TMState.init (some "access_token")) 100 100).2 = .returned ∧
      (pacedIter (Except.ok [("access_token", "T")])
        (jwt_save_token_info decGood)
        (TMState.init (some "access_token")) 100 100).1.request_time = 0) ∧
    (∀ e, (Except.ok [("access_token", "T")] :
          Except String TokenDict) = .error e →
      (pacedIter (Except.ok [("access_token", "T")])
        (jwt_save_token_info decGood)
        (TMState.init (some "access_token")) 100 100).2 = .raised e ∧
      (pacedIter (Except.ok [("access_token", "T")])
        (jwt_save_token_info decGood)
        (TMState.init (some "access_token")) 100 100).1.request_time =
          100) ∧
    (∀ resp e, (Except.ok [("access_token", "T")] :
          Except String TokenDict) = .ok resp →
      (jwt_save_token_info decGood
        { TMState.init (some "access_token") with request_time := 100 }
        resp).2 = some e →
      (pacedIter (Except.ok [("access_token", "T")])
        (jwt_save_token_info decGood)
        (TMState.init (some "access_token")) 100 100).2 = .raised e ∧
      (pacedIter (Except.ok [("access_token", "T")])
        (jwt_save_token_info decGood)
        (TMState.init (some "access_token")) 100 100).1.request_time =
          100)) :=
  ⟨⟨by decide, by decide⟩,
    C2_claim_release_paths decGood (Except.ok [("access_token", "T")])
      (TMState.init (some "access_token")) 100 100 (by decide) (by decide)⟩

/-- C8: the JWT expiry extraction decodes the value stored at the
configured `token_name` (with no verification key, mirroring
`verify=False`), uses `ttl = exp - iat` when both numeric claims are
present, and raises when the value is not a well-formed JWT or when `exp`
or `iat` is absent or non-numeric. -/
theorem C8_jwt_extractor (dec : String → Option JwtPayload) (s : TMState)
    (resp : TokenDict) (tok : String)
    (htok : dictGet resp s.token_name = some tok) :
    (∀ e i, dec tok = some ⟨some (.num e), some (.num i)⟩ →
      jwt_save_token_info dec s resp =
        (_set_expire_and_refresh_time { s with token_info := resp } e (e - i),
          none)) ∧
    (dec tok = none → (jwt_save_token_info dec s resp).2.isSome = true) ∧
    (∀ p, dec tok = some p →
      ((∀ q, p.exp ≠ some (.num q)) ∨ (∀ q, p.iat ≠ some (.num q))) →
      (jwt_save_token_info dec s resp).2.isSome = true) := by
  refine ⟨?_, ?_, ?_⟩
  · intro e i hdec
    simp [jwt_save_token_info, htok, hdec]
  · intro hdec
    simp [jwt_save_token_info, htok, hdec]
  · intro p hdec hbad
    obtain ⟨pe, pi⟩ := p
    cases pe with
    | none => simp [jwt_save_token_info, htok, hdec]
    | some c =>
      cases c with
      | nonNum => simp [jwt_save_token_info, htok, hdec]
      | num e =>
        cases pi with
        | none => simp [jwt_save_token_info, htok, hdec]
        | some c2 =>
          cases c2 with
          | nonNum => simp [jwt_save_token_info, htok, hdec]
          | num i =>
            rcases hbad with hb | hb
            · exact absurd rfl (hb e)
            · exact absurd rfl (hb i)

/-- C8 witness: the extractor on the response `{"access_token": "T"}`
whose token decodes to `exp = 1000, iat = 900`. -/
theorem C8_witness :
    dictGet [("access_token", "T")]
      (TMState.init (some "access_token")).token_name = some "T" ∧
    ((∀ e i, decGood "T" = some ⟨some (.num e), some (.num i)⟩ →
      jwt_save_token_info decGood (TMState.init (some "access_token"))
          [("access_token", "T")] =
        (_set_expire_and_refresh_time
          { TMState.init (some "access_token") with
              token_info := [("access_token", "T")] } e (e - i), none)) ∧
    (decGood "T" = none →
      (jwt_save_token_info decGood (TMState.init (some "access_token"))
        [("access_token", "T")]).2.isSome = true) ∧
    (∀ p, decGood "T" = some p →
      ((∀ q, p.exp ≠ some (.num q)) ∨ (∀ q, p.iat ≠ some (.num q))) →
      (jwt_save_token_info decGood (TMState.init (some "access_token"))
        [("access_token", "T")]).2.isSome = true)) :=
  ⟨rfl, C8_jwt_extractor decGood (TMState.init (some "access_token"))
    [("access_token", "T")] "T" rfl⟩

/-- C9: after a successful save of a response that maps the configured
`token_name` to `str`, a `get_token` call made while the token is neither
expired nor due for refresh performs no fetch and returns exactly
`str`. -/
theorem C9_get_token_returns_saved (dec : String → Option JwtPayload)
    (fetch : Except String TokenDict) (clock : Nat → Int) (fuel : Nat)
    (s0 s1 : TMState) (resp : TokenDict) (str : String)
    (hsave : jwt_save_token_info dec s0 resp = (s1, none))
    (hmaps : dictGet resp s0.token_name = some str)
    (hexp : _is_token_expired s1 (clock 0) = false)
    (href : ¬ s1.refresh_time < ((clock 1 : Int) : Rat)) :
    get_token fetch (jwt_save_token_info dec) clock fuel s1 =
      .ok s1 (some str) := by
  have hinfo : s1.token_info = resp := by
    have h := jwt_save_fst_token_info dec s0 resp
    rw [hsave] at h
    exact h
  have hname : s1.token_name = s0.token_name := by
    have h := jwt_save_fst_token_name dec s0 resp
    rw [hsave] at h
    exact h
  have hext : extract_token_from_stored_response s1 = some str := by
    unfold extract_token_from_stored_response
    rw [hinfo, hname]
    exact hmaps
  have h2 : _token_needs_refresh s1 (clock 1) = (false, s1) := by
    unfold _token_needs_refresh
    simp [href]
  unfold get_token
  simp [hexp, h2, hext]

/-- Helper: saving `{"access_token": "T"}` with `decGood` from the initial
state yields exactly `sSaved` (`expire_time = 1000`,
`refresh_time = 1000 - 100 * (1/5) = 980`). -/
theorem sSaved_spec :
    jwt_save_token_info decGood (TMState.init (some "access_token"))
      [("access_token", "T")] = (sSaved, none) := by
  simp only [jwt_save_token_info, decGood, dictGet, TMState.init, sSaved,
    _set_expire_and_refresh_time, List.lookup]
  norm_num

/-- C9 witness: the saved state `sSaved` queried at clock 970 (before
`refresh_time = 980`), returning the stored token `T`. -/
theorem C9_witness :
    (jwt_save_token_info decGood (TMState.init (some "access_token"))
        [("access_token", "T")] = (sSaved, none) ∧
      dictGet [("access_token", "T")]
        (TMState.init (some "access_token")).token_name = some "T" ∧
      _is_token_expired sSaved ((fun _ => (970 : Int)) 0) = false ∧
      ¬ sSaved.refresh_time < (((fun _ => (970 : Int)) 1 : Int) : Rat)) ∧
    get_token (Except.error "unused") (jwt_save_token_info decGood)
        (fun _ => (970 : Int)) 0 sSaved = .ok sSaved (some "T") :=
  ⟨⟨sSaved_spec, rfl, by decide, by decide⟩,
    C9_get_token_returns_saved decGood (Except.error "unused")
      (fun _ => (970 : Int)) 0 (TMState.init (some "access_token")) sSaved
      [("access_token", "T")] "T" sSaved_spec rfl (by decide) (by decide)⟩

/-- C3 witness: the amended record-replacement behaviour on a concrete
successful save over the cached state. -/
theorem C3_witness :
    (jwt_save_token_info decGood sCached
        [("access_token", "T")]).1.token_info = [("access_token", "T")] ∧
    ((jwt_save_token_info decGood sCached [("access_token", "T")]).2.isSome →
      (jwt_save_token_info decGood sCached
          [("access_token", "T")]).1.expire_time = sCached.expire_time ∧
      (jwt_save_token_info decGood sCached
          [("access_token", "T")]).1.refresh_time = sCached.refresh_time) ∧
    ((jwt_save_token_info decGood sCached [("access_token", "T")]).2 = none →
      ∃ tok exp iat,
        dictGet [("access_token", "T")] sCached.token_name = some tok ∧
        decGood tok = some ⟨some (.num exp), some (.num iat)⟩ ∧
        (jwt_save_token_info decGood sCached
            [("access_token", "T")]).1.expire_time = exp ∧
        (jwt_save_token_info decGood sCached
            [("access_token", "T")]).1.refresh_time =
          exp - (exp - iat) * (1 / 5)) :=
  C3_save_replaces_record decGood sCached [("access_token", "T")]
